import Mathlib

/-!
Verification development for the tabula-backend inventory service.

The definitions below are a shallow embedding of the Python source:
  - app/models/*.py            (data model: User, Warehouse, Product, Movement,
                                MovementLine, Stock)
  - app/utils/validation.py    (is_admin_user)
  - app/routers/websocket.py   (ConnectionManager: connect, disconnect, broadcast)
  - app/routers/movements.py   (create_movement, get_movements)
  - app/routers/stock.py       (get_stock_history)
  - app/routers/warehouses.py  (update_warehouse)

Modelling conventions:
  - dates and datetimes are days-since-epoch natural numbers; the server clock
    is passed explicitly (now, today);
  - the relational store is a record of lists of rows; the open transaction of
    create_movement is modelled by building the committed store only at the
    db.commit() point, so every raise before commit returns the original store
    (rollback) and every branch after commit returns the committed store;
  - HTTPException (status, detail) pairs are rendered as the structured type
    ApiErr: each constructor corresponds to exactly one raise site, and
    ApiErr.status / ApiErr.detail reproduce the status code and message;
  - failures of the persistence layer are injected through the Faults record:
    txFault is an exception raised inside the try-block around db.commit()
    (SqlErrKind lists the SQLAlchemyError subclasses: IntegrityError,
    OperationalError for lost connectivity, and other subclasses; PyFault.otherExc
    is an exception that is not a SQLAlchemyError), and userFetchFault /
    linesFetchFault make the two post-commit SELECTs raise SQLAlchemyError;
  - a websocket observer is modelled by its id plus a connected flag;
    await connection.send_text(...) succeeds exactly when the observer is
    still connected, and raises otherwise.
-/

namespace Tabula

/-! Data model, from app/models/*.py. -/

/-- Movement type; the pydantic schema restricts tipo to the literals
"entrada" (inbound) and "salida" (outbound). -/
inductive Tipo
  | entrada
  | salida
deriving DecidableEq

/-- The string stored in the tipo column. -/
def Tipo.pystr : Tipo → String
  | .entrada => "entrada"
  | .salida => "salida"

/-- usuario table (app/models/user.py). -/
structure User where
  id : Nat
  nombre : String
  email : String
  passwd : String
  rol : String
  activo : Bool
deriving DecidableEq

/-- almacen table (app/models/warehouse.py). -/
structure Warehouse where
  codigo : Nat
  descripcion : String
  activo : Bool
deriving DecidableEq

/-- producto table (app/models/product.py). -/
structure Product where
  codigo : Nat
  sku : String
  nombre_corto : String
  descripcion : Option String
  id_categoria : Nat
  activo : Bool
deriving DecidableEq

/-- movimientos table (app/models/movement.py); fecha is server-assigned. -/
structure Movement where
  id_mov : Nat
  fecha : Nat
  tipo : Tipo
  id_usuario : Nat
deriving DecidableEq

/-- movimientos_lineas table (app/models/movement_line.py). -/
structure MovementLine where
  id_mov : Nat
  id_linea : Nat
  codigo_almacen : Nat
  codigo_producto : Nat
  lote : String
  fecha_cad : Option Nat
  cantidad : Nat
deriving DecidableEq

/-- stock table (app/models/stock.py). -/
structure Stock where
  codigo_almacen : Nat
  codigo_producto : Nat
  lote : String
  fecha_cad : Option Nat
  cantidad : Nat
deriving DecidableEq

/-- The relational store: one list of rows per table.  nextMovId is the
sequence backing the generated primary key of movimientos. -/
structure Store where
  users : List User
  warehouses : List Warehouse
  products : List Product
  movements : List Movement
  movementLines : List MovementLine
  stocks : List Stock
  nextMovId : Nat
deriving DecidableEq

/-! app/utils/validation.py -/

/-- ASCII lowering of one character, as str.lower() acts on the ASCII
range (the strings lowered by the embedded handlers — roles and search
patterns — are ASCII). -/
def lowerChar (c : Char) : Char :=
  if 65 ≤ c.toNat ∧ c.toNat ≤ 90 then Char.ofNat (c.toNat + 32) else c

/-- str.lower(), character by character. -/
def pyLower (s : String) : String :=
  String.mk (s.data.map lowerChar)

/-- is_admin_user: user.rol.lower() == "admin". -/
def is_admin_user (u : User) : Bool :=
  pyLower u.rol == "admin"

/-! Request schemas, from app/schemas/movement_line.py and
app/schemas/movement.py.  lote is Optional[str]; the handler replaces a
missing or falsy (empty) value by the sentinel. -/

/-- MovementLineCreate: one submitted line. -/
structure LineCreate where
  codigo_almacen : Nat
  codigo_producto : Nat
  lote : Option String
  fecha_cad : Option Nat
  cantidad : Nat
deriving DecidableEq

/-- MovementCreate: the movement-creation request body. -/
structure MovementCreate where
  tipo : Tipo
  id_usuario : Nat
  lineas : List LineCreate
deriving DecidableEq

/-- The sentinel lot label. -/
def sentinelLote : String := "SIN_LOTE"

/-- line_data.lote or "SIN_LOTE": Python `or` substitutes the sentinel for
None and for the empty string (both falsy). -/
def defaultLote : Option String → String
  | none => sentinelLote
  | some s => if s = "" then sentinelLote else s

/-- How Python renders the optional lot inside the expiry error f-string. -/
def loteRepr : Option String → String
  | none => "None"
  | some s => s

/-! Error taxonomy.  Each constructor corresponds to exactly one
HTTPException raise site of the embedded handlers. -/

/-- Structured rendering of the HTTPException raise sites reached by the
embedded handlers. -/
inductive ApiErr
  | forbidden
  | emptyLines
  | expiredLine (producto : Nat) (lote : Option String) (fecha : Nat)
  | tooManyLines
  | inactiveWarehouses (codes : List Nat)
  | inactiveProducts (codes : List Nat)
  | integrityError
  | dbError
  | userFetchError
  | linesFetchError
  | whNotFound
  | whNotEmpty (codigo : Nat)
deriving DecidableEq

/-- HTTP status code of each raise site. -/
def ApiErr.status : ApiErr → Nat
  | .forbidden => 403
  | .emptyLines => 400
  | .expiredLine _ _ _ => 400
  | .tooManyLines => 400
  | .inactiveWarehouses _ => 400
  | .inactiveProducts _ => 400
  | .integrityError => 400
  | .dbError => 500
  | .userFetchError => 500
  | .linesFetchError => 500
  | .whNotFound => 404
  | .whNotEmpty _ => 403

/-- Detail message of each raise site (the Spanish messages of the source;
dynamic fragments such as the printed set of codes are abbreviated to the
stable prefix of the f-string). -/
def ApiErr.detail : ApiErr → String
  | .forbidden => "No puedes registrar un movimiento para otro usuario."
  | .emptyLines => "El movimiento debe contener al menos una línea."
  | .expiredLine p l f =>
      "La línea con producto " ++ toString p ++ ", lote '" ++ loteRepr l ++
        "', tiene una fecha de caducidad vencida o del día actual: " ++ toString f ++ "."
  | .tooManyLines => "El número máximo de líneas permitidas es 100."
  | .inactiveWarehouses _ => "Los siguientes almacenes no existen"
  | .inactiveProducts _ => "Los siguientes productos no existen"
  | .integrityError => "Error de integridad"
  | .dbError => "Error en la base de datos."
  | .userFetchError => "Error al obtener el usuario asociado al movimiento"
  | .linesFetchError => "Error de conexión con la base de datos"
  | .whNotFound => "Almacén no encontrado"
  | .whNotEmpty _ => "El almacén no está vacío y por tanto no se puede inactivar."

/-! Persistence-layer fault model.  SQLAlchemy raises subclasses of
SQLAlchemyError for everything coming from the database driver:
IntegrityError for uniqueness/foreign-key violations and OperationalError
for lost connectivity among them.  An `except SQLAlchemyError` clause
therefore catches all of them. -/

/-- The SQLAlchemyError subclass that was raised. -/
inductive SqlErrKind
  | integrityViolation
  | operationalFailure
  | otherSql
deriving DecidableEq

/-- An exception raised by a persistence call inside the create_movement
try-block: either some SQLAlchemyError subclass, or an exception outside
the SQLAlchemyError hierarchy. -/
inductive PyFault
  | sqlErr (k : SqlErrKind)
  | otherExc
deriving DecidableEq

/-- The except-chain of create_movement, in source order:
except SQLAlchemyError (all SqlErrKind values match) raises 400
"Error de integridad"; except HTTPException re-raises (HTTP exceptions are
returned directly in this embedding, so they never reach this dispatch);
except Exception raises 500 "Error en la base de datos.". -/
def handlePyFault : PyFault → ApiErr
  | .sqlErr _ => .integrityError
  | .otherExc => .dbError

/-- Fault-injection switches for the persistence collaborator, one per
try/except site of create_movement: txFault is raised at db.commit()
inside the transactional try-block; userFetchFault and linesFetchFault make
the corresponding post-commit SELECT raise SQLAlchemyError. -/
structure Faults where
  txFault : Option PyFault
  userFetchFault : Bool
  linesFetchFault : Bool
deriving DecidableEq

/-- No injected fault: the persistence layer succeeds everywhere. -/
def noFaults : Faults := ⟨none, false, false⟩

/-! Notification fan-out, from app/routers/websocket.py. -/

/-- A websocket client: its id and whether it is still connected.
await connection.send_text(message) succeeds exactly when the observer is
connected and raises otherwise. -/
structure Observer where
  id : Nat
  connected : Bool
deriving DecidableEq

/-- The body of ConnectionManager.broadcast:
for connection in active_connections: await connection.send_text(message).
Returns the ids delivered to, in order, and whether the loop ran to
completion; a raise from send_text aborts the loop at once, so delivery
stops at the first disconnected observer and the exception propagates to
the caller of broadcast. -/
def broadcastRun : List Observer → List Nat × Bool
  | [] => ([], true)
  | o :: rest =>
      if o.connected then
        let r := broadcastRun rest
        (o.id :: r.1, r.2)
      else ([], false)

/-- ConnectionManager: the list of active connections, in connect order. -/
structure ConnectionManager where
  active_connections : List Observer
deriving DecidableEq

/-- ConnectionManager.connect appends the accepted socket to the list. -/
def ConnectionManager.connect (m : ConnectionManager) (w : Observer) : ConnectionManager :=
  ⟨m.active_connections ++ [w]⟩

/-- ConnectionManager.disconnect removes the socket from the list. -/
def ConnectionManager.disconnect (m : ConnectionManager) (w : Observer) : ConnectionManager :=
  ⟨m.active_connections.erase w⟩

/-- ConnectionManager.broadcast delivers to the registered observers in
order; first component: ids delivered to, second: whether no send raised. -/
def ConnectionManager.broadcast (m : ConnectionManager) : List Nat × Bool :=
  broadcastRun m.active_connections

/-! The movement-creation handler, from app/routers/movements.py
(create_movement, lines 224-394). -/

/-- The validation phase of create_movement that runs before the
transactional try-block, checks in source order: authorization (403),
non-empty lines (400), expired lot on an inbound line (400, first offending
line in submission order), line count above 100 (400).  Returns the first
rejection, or none when all checks pass. -/
def findExpiredLine (today : Nat) (tipo : Tipo) : List LineCreate → Option (LineCreate × Nat)
  | [] => none
  | l :: rest =>
      match l.fecha_cad with
      | some d =>
          if d ≤ today ∧ tipo = .entrada then some (l, d)
          else findExpiredLine today tipo rest
      | none => findExpiredLine today tipo rest

/-- The pre-transaction checks of create_movement, in source order. -/
def validateMovement (today : Nat) (current_user : User) (data : MovementCreate) :
    Option ApiErr :=
  if is_admin_user current_user = false ∧ data.id_usuario ≠ current_user.id then
    some .forbidden
  else if data.lineas.isEmpty then
    some .emptyLines
  else
    match findExpiredLine today data.tipo data.lineas with
    | some (l, d) => some (.expiredLine l.codigo_producto l.lote d)
    | none =>
        if data.lineas.length > 100 then some .tooManyLines
        else none

/-- Codes of the active warehouses of the store (the SELECT
Warehouse.codigo WHERE codigo IN almacenes AND activo, membership side). -/
def activeWarehouse (store : Store) (c : Nat) : Bool :=
  store.warehouses.any (fun w => w.codigo == c && w.activo)

/-- Codes of the active products of the store. -/
def activeProduct (store : Store) (c : Nat) : Bool :=
  store.products.any (fun p => p.codigo == c && p.activo)

/-- set(almacenes) - set(almacenes_activos): the distinct requested
warehouse codes that did not come back from the active-codes SELECT. -/
def warehouseDiff (store : Store) (data : MovementCreate) : List Nat :=
  ((data.lineas.map (fun l => l.codigo_almacen)).eraseDups).filter
    (fun c => activeWarehouse store c = false)

/-- set(productos) - set(productos_activos). -/
def productDiff (store : Store) (data : MovementCreate) : List Nat :=
  ((data.lineas.map (fun l => l.codigo_producto)).eraseDups).filter
    (fun c => activeProduct store c = false)

/-- The referential-activity checks inside the try-block, in source order:
first warehouses, then products; each raises HTTPException(400) naming the
offending codes, which the except HTTPException clause rolls back and
re-raises. -/
def refCheck (store : Store) (data : MovementCreate) : Option ApiErr :=
  if (warehouseDiff store data).isEmpty = false then
    some (.inactiveWarehouses (warehouseDiff store data))
  else if (productDiff store data).isEmpty = false then
    some (.inactiveProducts (productDiff store data))
  else none

/-- The MovementLine rows built by the insertion loop
for i, line_data in enumerate(movement_data.lineas, 1): line i carries
id_linea i, the referenced codes, the lot defaulted through Python or,
the optional expiration date and the quantity. -/
def lineRow (id_mov id_linea : Nat) (l : LineCreate) : MovementLine :=
  { id_mov := id_mov
    id_linea := id_linea
    codigo_almacen := l.codigo_almacen
    codigo_producto := l.codigo_producto
    lote := defaultLote l.lote
    fecha_cad := l.fecha_cad
    cantidad := l.cantidad }

/-- The rows inserted by the loop, numbering from i0. -/
def mkLinesFrom (id_mov i0 : Nat) : List LineCreate → List MovementLine
  | [] => []
  | l :: rest => lineRow id_mov i0 l :: mkLinesFrom id_mov (i0 + 1) rest

/-- enumerate starts at 1: the first submitted line carries id_linea 1. -/
def mkLines (id_mov : Nat) (lineas : List LineCreate) : List MovementLine :=
  mkLinesFrom id_mov 1 lineas

/-- The Movement header row as flushed inside the transaction: the
generated id comes from the sequence, fecha from the server clock. -/
def mkHeader (store : Store) (now : Nat) (data : MovementCreate) : Movement :=
  { id_mov := store.nextMovId
    fecha := now
    tipo := data.tipo
    id_usuario := data.id_usuario }

/-- The store as left by a successful db.commit(): header and all lines
appended, sequence advanced. -/
def commitMovement (store : Store) (now : Nat) (data : MovementCreate) : Store :=
  { store with
      movements := store.movements ++ [mkHeader store now data]
      movementLines := store.movementLines ++ mkLines store.nextMovId data.lineas
      nextMovId := store.nextMovId + 1 }

/-- MovementResponse, from app/schemas/movement.py. -/
structure MovementResponse where
  id_mov : Nat
  fecha : Nat
  tipo : Tipo
  id_usuario : Nat
  nombre_usuario : String
  lineas : List MovementLine
deriving DecidableEq

/-- The broadcast message built on the success path:
f"Nuevo movimiento registrado: {id_mov} ({tipo})". -/
def mensaje (id_mov : Nat) (tipo : Tipo) : String :=
  "Nuevo movimiento registrado: " ++ toString id_mov ++ " (" ++ tipo.pystr ++ ")"

/-- The 201 response body assembled on the success path: the flushed
header, the user name re-read from the store (falsy values replaced by
"Desconocido"), and the lines re-read by id_mov. -/
def okResponse (store : Store) (now : Nat) (data : MovementCreate) : MovementResponse :=
  let committed := commitMovement store now data
  let header := mkHeader store now data
  { id_mov := header.id_mov
    fecha := header.fecha
    tipo := header.tipo
    id_usuario := header.id_usuario
    nombre_usuario :=
      match committed.users.find? (fun u => u.id == data.id_usuario) with
      | some u => if u.nombre = "" then "Desconocido" else u.nombre
      | none => "Desconocido"
    lineas := committed.movementLines.filter (fun l => l.id_mov == header.id_mov) }

/-- Outcome of one handler call: the 201 response body, or the raised
HTTPException. -/
inductive CreateOutcome
  | ok (resp : MovementResponse)
  | err (e : ApiErr)
deriving DecidableEq

/-- Whether the handler returned the 201 response. -/
def CreateOutcome.isOk : CreateOutcome → Bool
  | .ok _ => true
  | .err _ => false

/-- Everything one call to create_movement produced: the response or error,
the store after the call, the message handed to the fan-out (none when the
broadcast block was never reached), and the observer ids actually delivered
to. -/
structure CreateResult where
  outcome : CreateOutcome
  store : Store
  broadcastMsg : Option String
  delivered : List Nat
deriving DecidableEq

/-- create_movement (app/routers/movements.py, lines 224-394).
Control flow of the source, in order: authorization, empty-lines, expired
lot, max-lines checks; then the transactional try-block (flush header,
active-warehouse diff, active-product diff, insert lines, commit) whose
every raise rolls the transaction back, with SQLAlchemyError mapped to 400
and any other non-HTTP exception to 500; then the two post-commit SELECTs
(user name, lines), each turned into a 500 on SQLAlchemyError while the
commit stays; finally the broadcast, whose own failure is absorbed. -/
def create_movement (now today : Nat) (current_user : User) (data : MovementCreate)
    (store : Store) (mgr : ConnectionManager) (faults : Faults) : CreateResult :=
  match validateMovement today current_user data with
  | some e => ⟨.err e, store, none, []⟩
  | none =>
      match refCheck store data with
      | some e => ⟨.err e, store, none, []⟩
      | none =>
          match faults.txFault with
          | some f => ⟨.err (handlePyFault f), store, none, []⟩
          | none =>
              let committed := commitMovement store now data
              if faults.userFetchFault then
                ⟨.err .userFetchError, committed, none, []⟩
              else if faults.linesFetchFault then
                ⟨.err .linesFetchError, committed, none, []⟩
              else
                ⟨.ok (okResponse store now data), committed,
                  some (mensaje store.nextMovId data.tipo), mgr.broadcast.1⟩

/-! The single-warehouse update handler, from app/routers/warehouses.py
(update_warehouse, lines 167-224). -/

/-- WarehouseUpdate, from app/schemas/warehouse.py: both fields optional. -/
structure WarehouseUpdate where
  descripcion : Option String
  activo : Option Bool
deriving DecidableEq

/-- Outcome of update_warehouse: the updated row, or the raised
HTTPException. -/
inductive UpdateOutcome
  | ok (w : Warehouse)
  | err (e : ApiErr)
deriving DecidableEq

/-- update_warehouse (app/routers/warehouses.py, lines 167-224):
db.get by primary key (404 if absent); when the request sets activo to
False (warehouse_update.activo == False matches only an explicit False),
SELECT the first Stock row of the warehouse and raise 403 if one exists,
whatever its cantidad; otherwise overwrite descripcion when truthy, activo
when not None, and commit. -/
def update_warehouse (codigo : Nat) (upd : WarehouseUpdate) (store : Store) :
    UpdateOutcome × Store :=
  match store.warehouses.find? (fun w => w.codigo == codigo) with
  | none => (.err .whNotFound, store)
  | some wh =>
      if upd.activo = some false ∧
          (store.stocks.find? (fun s => s.codigo_almacen == codigo)).isSome then
        (.err (.whNotEmpty codigo), store)
      else
        let wh1 :=
          match upd.descripcion with
          | some d => if d = "" then wh else { wh with descripcion := d }
          | none => wh
        let wh2 :=
          match upd.activo with
          | some a => { wh1 with activo := a }
          | none => wh1
        (.ok wh2,
          { store with
              warehouses := store.warehouses.map
                (fun w => if w.codigo == codigo then wh2 else w) })

/-! Read-side queries over movement data: the paginated movement listing
(app/routers/movements.py, get_movements, lines 33-117) and the stock
movement history (app/routers/stock.py, get_stock_history, lines 355-414).
ORDER BY fecha DESC is rendered by a stable insertion sort on the fecha
projection; LIMIT/OFFSET by take/drop. -/

/-- Stable descending insertion on the key f: the new element goes in
front of the first strictly smaller key. -/
def insertDescBy (f : α → Nat) (a : α) : List α → List α
  | [] => [a]
  | b :: rest => if f b < f a then a :: b :: rest else b :: insertDescBy f a rest

/-- Stable sort by the key f, descending (ORDER BY f DESC). -/
def sortDescBy (f : α → Nat) : List α → List α
  | [] => []
  | a :: rest => insertDescBy f a (sortDescBy f rest)

/-- Stable ascending insertion on the key f. -/
def insertAscBy (f : α → Nat) (a : α) : List α → List α
  | [] => [a]
  | b :: rest => if f a < f b then a :: b :: rest else b :: insertAscBy f a rest

/-- Stable sort by the key f, ascending (ORDER BY f). -/
def sortAscBy (f : α → Nat) : List α → List α
  | [] => []
  | a :: rest => insertAscBy f a (sortAscBy f rest)

/-- Whether the second character list starts with the first. -/
def startsWith : List Char → List Char → Bool
  | [], _ => true
  | _ :: _, [] => false
  | a :: as, b :: bs => a == b && startsWith as bs

/-- Whether the first character list occurs contiguously inside the
second: the semantics of the SQL pattern %needle% on the lowered column. -/
def hasInfix (needle : List Char) : List Char → Bool
  | [] => needle.isEmpty
  | b :: bs => startsWith needle (b :: bs) || hasInfix needle bs

/-- One row of select(Movement, User.nombre).join(User, ...). -/
structure MovementRow where
  mov : Movement
  nombre : String
deriving DecidableEq

/-- The filtered statement of get_movements before ordering and
pagination, with the optional query filters applied in source order:
the User join, the ilike search on the lowered user name (skipped for a
missing or empty search string), the tipo filter (only for the two literal
values), the fecha bounds, the admin-only usuario_id filter (skipped for
usuario_id 0, falsy in Python), and last the non-admin ownership
restriction. -/
def movementsStatement (store : Store) (current_user : User)
    (search : Option String) (tipo : Option String)
    (fecha_desde fecha_hasta : Option Nat) (usuario_id : Option Nat) :
    List MovementRow :=
  let base := store.movements.flatMap (fun m =>
    (store.users.filter (fun u => u.id == m.id_usuario)).map
      (fun u => MovementRow.mk m u.nombre))
  let s1 :=
    match search with
    | some s =>
        if s = "" then base
        else base.filter (fun r => hasInfix (pyLower s).toList (pyLower r.nombre).toList)
    | none => base
  let s2 :=
    match tipo with
    | some t =>
        if t = "entrada" ∨ t = "salida" then
          s1.filter (fun r => r.mov.tipo.pystr == t)
        else s1
    | none => s1
  let s3 :=
    match fecha_desde with
    | some d => s2.filter (fun r => d ≤ r.mov.fecha)
    | none => s2
  let s4 :=
    match fecha_hasta with
    | some d => s3.filter (fun r => r.mov.fecha ≤ d)
    | none => s3
  let s5 :=
    match usuario_id with
    | some uid =>
        if uid ≠ 0 ∧ is_admin_user current_user then
          s4.filter (fun r => r.mov.id_usuario == uid)
        else s4
    | none => s4
  if is_admin_user current_user then s5
  else s5.filter (fun r => r.mov.id_usuario == current_user.id)

/-- get_movements (app/routers/movements.py, lines 33-117): the filtered
statement ordered by fecha descending, paginated, each row completed with
its lines ordered by id_linea. -/
def get_movements (store : Store) (current_user : User) (limit offset : Nat)
    (search : Option String) (tipo : Option String)
    (fecha_desde fecha_hasta : Option Nat) (usuario_id : Option Nat) :
    List MovementResponse :=
  let rows := ((sortDescBy (fun r => r.mov.fecha)
      (movementsStatement store current_user search tipo fecha_desde fecha_hasta
        usuario_id)).drop offset).take limit
  rows.map (fun r =>
    { id_mov := r.mov.id_mov
      fecha := r.mov.fecha
      tipo := r.mov.tipo
      id_usuario := r.mov.id_usuario
      nombre_usuario := r.nombre
      lineas := sortAscBy (fun l => l.id_linea)
        (store.movementLines.filter (fun l => l.id_mov == r.mov.id_mov)) })

/-- One row of the stock-history SELECT. -/
structure StockHistoryRow where
  id_mov : Nat
  fecha : Nat
  tipo : Tipo
  codigo_almacen : Nat
  codigo_producto : Nat
  sku : String
  lote : String
  cantidad : Nat
  usuario : String
deriving DecidableEq

/-- The joined statement of get_stock_history: movements joined with their
lines, the owning user and the product of each line.  No WHERE clause
involves the calling user. -/
def stockHistoryStatement (store : Store) : List StockHistoryRow :=
  store.movements.flatMap (fun m =>
    (store.movementLines.filter (fun l => l.id_mov == m.id_mov)).flatMap (fun l =>
      (store.users.filter (fun u => u.id == m.id_usuario)).flatMap (fun u =>
        (store.products.filter (fun p => p.codigo == l.codigo_producto)).map
          (fun p =>
            { id_mov := m.id_mov
              fecha := m.fecha
              tipo := m.tipo
              codigo_almacen := l.codigo_almacen
              codigo_producto := l.codigo_producto
              sku := p.sku
              lote := l.lote
              cantidad := l.cantidad
              usuario := u.nombre }))))

/-- get_stock_history (app/routers/stock.py, lines 355-414): the joined
statement ordered by fecha descending and paginated.  current_user is a
parameter of the handler but never occurs in the query. -/
def get_stock_history (current_user : User) (store : Store) (limit offset : Nat) :
    List StockHistoryRow :=
  ((sortDescBy (fun r => r.fecha) (stockHistoryStatement store)).drop offset).take limit

/-! Concrete fixtures used by the witness and counterexample theorems. -/

/-- An active admin user. -/
def egAdmin : User := ⟨1, "alice", "a@x", "h", "admin", true⟩

/-- An active regular user. -/
def egPlain : User := ⟨2, "bob", "b@x", "h", "usuario", true⟩

/-- A store with one active warehouse, two active products and no
movements; the movement sequence stands at 7. -/
def egStore : Store :=
  { users := [egAdmin, egPlain]
    warehouses := [⟨1, "Central", true⟩]
    products := [⟨100, "SKU100", "P100", none, 1, true⟩, ⟨200, "SKU200", "P200", none, 1, true⟩]
    movements := []
    movementLines := []
    stocks := []
    nextMovId := 7 }

/-- A valid three-line outbound request: lot omitted, lot blank, lot set. -/
def egData : MovementCreate :=
  { tipo := .salida
    id_usuario := 2
    lineas := [⟨1, 100, none, none, 5⟩, ⟨1, 200, some "", none, 3⟩, ⟨1, 100, some "L9", some 30, 2⟩] }

/-- An inbound request whose single line expires exactly today (today is
10 in the witnesses). -/
def egDataExp : MovementCreate :=
  { tipo := .entrada
    id_usuario := 2
    lineas := [⟨1, 100, some "L1", some 10, 5⟩] }

/-- The valid request with its line list emptied. -/
def egDataEmpty : MovementCreate := { egData with lineas := [] }

/-- egStore with product 200 deactivated. -/
def egStoreInactive : Store :=
  { egStore with
      products := [⟨100, "SKU100", "P100", none, 1, true⟩, ⟨200, "SKU200", "P200", none, 1, false⟩] }

/-- A non-admin caller for the read-side queries. -/
def histCaller : User := ⟨1, "ana", "ana@x", "h", "usuario", true⟩

/-- A store holding one committed movement owned by user 2, with one line. -/
def histStore : Store :=
  { users := [histCaller, ⟨2, "bob", "b@x", "h", "usuario", true⟩]
    warehouses := [⟨1, "Central", true⟩]
    products := [⟨100, "SKU100", "P100", none, 1, true⟩]
    movements := [⟨7, 50, .entrada, 2⟩]
    movementLines := [⟨7, 1, 1, 100, "L", none, 5⟩]
    stocks := []
    nextMovId := 8 }

/-- histStore with a single stock row of quantity zero in warehouse 1. -/
def whStore : Store := { histStore with stocks := [⟨1, 100, "L", none, 0⟩] }

/-- The non-admin owner of the movement stored in histStore. -/
def bobUser : User := ⟨2, "bob", "b@x", "h", "usuario", true⟩

/-! General lemmas about the query building blocks. -/

theorem mem_insertDescBy (f : α → Nat) (a x : α) (l : List α) :
    x ∈ insertDescBy f a l ↔ x = a ∨ x ∈ l := by
  induction l with
  | nil => simp [insertDescBy]
  | cons b rest ih =>
      unfold insertDescBy
      by_cases h : f b < f a
      · simp [h]
      · simp [h, ih]
        tauto

theorem mem_sortDescBy (f : α → Nat) (x : α) (l : List α) :
    x ∈ sortDescBy f l ↔ x ∈ l := by
  induction l with
  | nil => simp [sortDescBy]
  | cons a rest ih =>
      unfold sortDescBy
      rw [mem_insertDescBy, ih]
      simp

/-- Rows surviving the movement-listing filters under a non-admin caller
all belong to the caller: the last WHERE clause of the statement restricts
id_usuario to the caller's id. -/
theorem movementsStatement_nonadmin (store : Store) (u : User)
    (search tipo : Option String) (fd fh uid : Option Nat) (r : MovementRow)
    (hadmin : is_admin_user u = false)
    (hr : r ∈ movementsStatement store u search tipo fd fh uid) :
    r.mov.id_usuario = u.id := by
  unfold movementsStatement at hr
  simp only [hadmin, Bool.false_eq_true, if_false] at hr
  rw [List.mem_filter] at hr
  exact beq_iff_eq.mp hr.2

/-! Lemmas about the validation phase of create_movement. -/

theorem findExpiredLine_salida (today : Nat) (ls : List LineCreate) :
    findExpiredLine today .salida ls = none := by
  induction ls with
  | nil => rfl
  | cons l rest ih =>
      unfold findExpiredLine
      cases l.fecha_cad with
      | some d => simpa using ih
      | none => simpa using ih

theorem findExpiredLine_none_of_fresh (today : Nat) (tipo : Tipo) (ls : List LineCreate)
    (h : ∀ l ∈ ls, ∀ d, l.fecha_cad = some d → today < d) :
    findExpiredLine today tipo ls = none := by
  induction ls with
  | nil => rfl
  | cons l rest ih =>
      unfold findExpiredLine
      cases hd : l.fecha_cad with
      | some d =>
          have hfresh := h l (by simp) d hd
          simp only []
          rw [if_neg (fun hc => absurd hfresh (Nat.not_lt.mpr hc.1))]
          exact ih (fun x hx => h x (by simp [hx]))
      | none =>
          simp only []
          exact ih (fun x hx => h x (by simp [hx]))

theorem findExpiredLine_spec (today : Nat) (tipo : Tipo) (ls : List LineCreate)
    (l : LineCreate) (d : Nat)
    (h : findExpiredLine today tipo ls = some (l, d)) :
    l ∈ ls ∧ l.fecha_cad = some d ∧ d ≤ today ∧ tipo = .entrada := by
  induction ls with
  | nil => cases h
  | cons x rest ih =>
      unfold findExpiredLine at h
      cases hd : x.fecha_cad with
      | some e =>
          rw [hd] at h
          simp only [] at h
          by_cases hc : e ≤ today ∧ tipo = .entrada
          · rw [if_pos hc] at h
            cases h
            exact ⟨by simp, hd, hc.1, hc.2⟩
          · rw [if_neg hc] at h
            obtain ⟨h1, h2, h3, h4⟩ := ih h
            exact ⟨by simp [h1], h2, h3, h4⟩
      | none =>
          rw [hd] at h
          simp only [] at h
          obtain ⟨h1, h2, h3, h4⟩ := ih h
          exact ⟨by simp [h1], h2, h3, h4⟩

theorem findExpiredLine_isSome (today : Nat) (ls : List LineCreate)
    (l : LineCreate) (d : Nat)
    (hl : l ∈ ls) (hd : l.fecha_cad = some d) (hexp : d ≤ today) :
    (findExpiredLine today .entrada ls).isSome = true := by
  induction ls with
  | nil => cases hl
  | cons x rest ih =>
      unfold findExpiredLine
      cases hxd : x.fecha_cad with
      | some e =>
          simp only []
          by_cases hc : e ≤ today
          · rw [if_pos ⟨hc, trivial⟩]
            rfl
          · rw [if_neg (fun hp => hc hp.1)]
            rcases List.mem_cons.mp hl with hx | hx
            · subst hx
              rw [hxd] at hd
              cases hd
              exact absurd hexp hc
            · exact ih hx
      | none =>
          simp only []
          rcases List.mem_cons.mp hl with hx | hx
          · subst hx
            rw [hxd] at hd
            cases hd
          · exact ih hx

theorem validate_forbidden_iff (today : Nat) (u : User) (data : MovementCreate) :
    validateMovement today u data = some .forbidden ↔
      (is_admin_user u = false ∧ data.id_usuario ≠ u.id) := by
  unfold validateMovement
  by_cases h : is_admin_user u = false ∧ data.id_usuario ≠ u.id
  · rw [if_pos h]
    simp [h]
  · rw [if_neg h]
    constructor
    · intro hc
      by_cases he : data.lineas.isEmpty
      · rw [if_pos he] at hc
        cases hc
      · rw [if_neg he] at hc
        cases hf : findExpiredLine today data.tipo data.lineas with
        | some ld =>
            obtain ⟨l, d⟩ := ld
            rw [hf] at hc
            cases hc
        | none =>
            rw [hf] at hc
            by_cases hl : 100 < data.lineas.length
            · rw [if_pos hl] at hc
              cases hc
            · rw [if_neg hl] at hc
              cases hc
    · intro hc
      exact absurd hc h

theorem validate_none_parts (today : Nat) (u : User) (data : MovementCreate)
    (h : validateMovement today u data = none) :
    ¬(is_admin_user u = false ∧ data.id_usuario ≠ u.id) ∧
    data.lineas.isEmpty = false ∧
    findExpiredLine today data.tipo data.lineas = none ∧
    ¬ 100 < data.lineas.length := by
  unfold validateMovement at h
  by_cases h1 : is_admin_user u = false ∧ data.id_usuario ≠ u.id
  · rw [if_pos h1] at h
    cases h
  · rw [if_neg h1] at h
    by_cases h2 : data.lineas.isEmpty
    · rw [if_pos h2] at h
      cases h
    · rw [if_neg h2] at h
      cases hf : findExpiredLine today data.tipo data.lineas with
      | some ld =>
          obtain ⟨l, d⟩ := ld
          rw [hf] at h
          cases h
      | none =>
          rw [hf] at h
          by_cases h3 : 100 < data.lineas.length
          · rw [if_pos h3] at h
            cases h
          · exact ⟨h1, by simpa using h2, rfl, h3⟩

theorem validate_of_empty (today : Nat) (u : User) (data : MovementCreate)
    (hauth : ¬(is_admin_user u = false ∧ data.id_usuario ≠ u.id))
    (h : data.lineas = []) :
    validateMovement today u data = some .emptyLines := by
  unfold validateMovement
  rw [if_neg hauth, if_pos (by simp [h])]

theorem validate_of_expired (today : Nat) (u : User) (data : MovementCreate)
    (l : LineCreate) (d : Nat)
    (hauth : ¬(is_admin_user u = false ∧ data.id_usuario ≠ u.id))
    (h : findExpiredLine today data.tipo data.lineas = some (l, d)) :
    validateMovement today u data = some (.expiredLine l.codigo_producto l.lote d) := by
  have hne : data.lineas.isEmpty = false := by
    cases hl : data.lineas with
    | nil => rw [hl] at h; cases h
    | cons a rest => rfl
  unfold validateMovement
  rw [if_neg hauth, if_neg (by simp [hne]), h]

theorem validate_of_tooMany (today : Nat) (u : User) (data : MovementCreate)
    (hauth : ¬(is_admin_user u = false ∧ data.id_usuario ≠ u.id))
    (hne : data.lineas.isEmpty = false)
    (hexp : findExpiredLine today data.tipo data.lineas = none)
    (hlen : 100 < data.lineas.length) :
    validateMovement today u data = some .tooManyLines := by
  unfold validateMovement
  rw [if_neg hauth, if_neg (by simp [hne]), hexp, if_pos hlen]

theorem validate_none_of (today : Nat) (u : User) (data : MovementCreate)
    (hauth : ¬(is_admin_user u = false ∧ data.id_usuario ≠ u.id))
    (hne : data.lineas.isEmpty = false)
    (hexp : findExpiredLine today data.tipo data.lineas = none)
    (hlen : ¬ 100 < data.lineas.length) :
    validateMovement today u data = none := by
  unfold validateMovement
  rw [if_neg hauth, if_neg (by simp [hne]), hexp, if_neg hlen]

/-- refCheck only ever returns the two referential-activity errors. -/
theorem refCheck_shape (store : Store) (data : MovementCreate) (e : ApiErr)
    (h : refCheck store data = some e) :
    (∃ cs, e = .inactiveWarehouses cs) ∨ (∃ cs, e = .inactiveProducts cs) := by
  unfold refCheck at h
  by_cases h1 : (warehouseDiff store data).isEmpty = false
  · rw [if_pos h1] at h
    cases h
    exact Or.inl ⟨_, rfl⟩
  · rw [if_neg h1] at h
    by_cases h2 : (productDiff store data).isEmpty = false
    · rw [if_pos h2] at h
      cases h
      exact Or.inr ⟨_, rfl⟩
    · rw [if_neg h2] at h
      cases h

/-- Exhaustive case analysis of one create_movement call: every run is a
validation rejection, a referential rejection, a rolled-back persistence
failure, a post-commit read failure over the committed store, or the full
success path. -/
theorem create_movement_cases (now today : Nat) (u : User) (data : MovementCreate)
    (store : Store) (mgr : ConnectionManager) (faults : Faults) :
    (∃ e, validateMovement today u data = some e ∧
        create_movement now today u data store mgr faults = ⟨.err e, store, none, []⟩) ∨
    (validateMovement today u data = none ∧ ∃ e, refCheck store data = some e ∧
        create_movement now today u data store mgr faults = ⟨.err e, store, none, []⟩) ∨
    (validateMovement today u data = none ∧ refCheck store data = none ∧
      ∃ f, faults.txFault = some f ∧
        create_movement now today u data store mgr faults =
          ⟨.err (handlePyFault f), store, none, []⟩) ∨
    (validateMovement today u data = none ∧ refCheck store data = none ∧
      faults.txFault = none ∧ faults.userFetchFault = true ∧
        create_movement now today u data store mgr faults =
          ⟨.err .userFetchError, commitMovement store now data, none, []⟩) ∨
    (validateMovement today u data = none ∧ refCheck store data = none ∧
      faults.txFault = none ∧ faults.userFetchFault = false ∧
      faults.linesFetchFault = true ∧
        create_movement now today u data store mgr faults =
          ⟨.err .linesFetchError, commitMovement store now data, none, []⟩) ∨
    (validateMovement today u data = none ∧ refCheck store data = none ∧
      faults.txFault = none ∧ faults.userFetchFault = false ∧
      faults.linesFetchFault = false ∧
        create_movement now today u data store mgr faults =
          ⟨.ok (okResponse store now data), commitMovement store now data,
            some (mensaje store.nextMovId data.tipo), mgr.broadcast.1⟩) := by
  unfold create_movement
  cases hv : validateMovement today u data with
  | some e => exact Or.inl ⟨e, rfl, rfl⟩
  | none =>
      cases hr : refCheck store data with
      | some e => exact Or.inr (Or.inl ⟨rfl, e, rfl, rfl⟩)
      | none =>
          cases hf : faults.txFault with
          | some f => exact Or.inr (Or.inr (Or.inl ⟨rfl, rfl, f, rfl, rfl⟩))
          | none =>
              cases hu : faults.userFetchFault with
              | true =>
                  refine Or.inr (Or.inr (Or.inr (Or.inl ⟨rfl, rfl, rfl, rfl, ?_⟩)))
                  simp
              | false =>
                  cases hl : faults.linesFetchFault with
                  | true =>
                      refine Or.inr (Or.inr (Or.inr (Or.inr (Or.inl
                        ⟨rfl, rfl, rfl, rfl, rfl, ?_⟩))))
                      simp
                  | false =>
                      refine Or.inr (Or.inr (Or.inr (Or.inr (Or.inr
                        ⟨rfl, rfl, rfl, rfl, rfl, ?_⟩))))
                      simp

/-- With the authorization, non-empty and cardinality checks all passing,
the only rejection the validation phase can still produce is the expiry
one. -/
theorem validate_some_shape (today : Nat) (u : User) (data : MovementCreate)
    (hauth : ¬(is_admin_user u = false ∧ data.id_usuario ≠ u.id))
    (hne : data.lineas.isEmpty = false)
    (hlen : ¬ 100 < data.lineas.length)
    (e : ApiErr) (h : validateMovement today u data = some e) :
    ∃ p lo f, e = .expiredLine p lo f := by
  unfold validateMovement at h
  rw [if_neg hauth, if_neg (by simp [hne])] at h
  cases hf : findExpiredLine today data.tipo data.lineas with
  | some ld =>
      obtain ⟨l, d⟩ := ld
      rw [hf] at h
      simp only [] at h
      injection h with he
      exact ⟨_, _, _, he.symm⟩
  | none =>
      rw [hf, if_neg hlen] at h
      cases h

/-- The validation phase returns an expiry rejection only when the scan of
the lines actually found an offending line. -/
theorem validate_expiredLine_inv (today : Nat) (u : User) (data : MovementCreate)
    (p : Nat) (lo : Option String) (f : Nat)
    (h : validateMovement today u data = some (.expiredLine p lo f)) :
    (findExpiredLine today data.tipo data.lineas).isSome = true := by
  unfold validateMovement at h
  by_cases h1 : is_admin_user u = false ∧ data.id_usuario ≠ u.id
  · rw [if_pos h1] at h
    simp at h
  · rw [if_neg h1] at h
    by_cases h2 : data.lineas.isEmpty
    · rw [if_pos h2] at h
      simp at h
    · rw [if_neg h2] at h
      cases hf : findExpiredLine today data.tipo data.lineas with
      | some ld => rfl
      | none =>
          rw [hf] at h
          by_cases h3 : 100 < data.lineas.length
          · rw [if_pos h3] at h
            simp at h
          · rw [if_neg h3] at h
            cases h

/-- Inversion: the error of a failed create_movement call came from the
validation phase, the referential checks, the exception dispatch of the
transactional try-block, or one of the two post-commit reads. -/
theorem create_outcome_err_inv (now today : Nat) (u : User) (data : MovementCreate)
    (store : Store) (mgr : ConnectionManager) (faults : Faults) (e : ApiErr)
    (h : (create_movement now today u data store mgr faults).outcome = .err e) :
    validateMovement today u data = some e ∨
    refCheck store data = some e ∨
    (∃ f, faults.txFault = some f ∧ e = handlePyFault f) ∨
    e = .userFetchError ∨ e = .linesFetchError := by
  rcases create_movement_cases now today u data store mgr faults with
    ⟨e2, hv, heq⟩ | ⟨hv, e2, hr, heq⟩ | ⟨hv, hr, f, hf, heq⟩ | ⟨hv, hr, hf, hu, heq⟩ |
    ⟨hv, hr, hf, hu, hl, heq⟩ | ⟨hv, hr, hf, hu, hl, heq⟩
  · rw [heq] at h
    have h2 : CreateOutcome.err e2 = CreateOutcome.err e := h
    injection h2 with h3
    rw [h3] at hv
    exact Or.inl hv
  · rw [heq] at h
    have h2 : CreateOutcome.err e2 = CreateOutcome.err e := h
    injection h2 with h3
    rw [h3] at hr
    exact Or.inr (Or.inl hr)
  · rw [heq] at h
    have h2 : CreateOutcome.err (handlePyFault f) = CreateOutcome.err e := h
    injection h2 with h3
    exact Or.inr (Or.inr (Or.inl ⟨f, hf, h3.symm⟩))
  · rw [heq] at h
    have h2 : CreateOutcome.err ApiErr.userFetchError = CreateOutcome.err e := h
    injection h2 with h3
    exact Or.inr (Or.inr (Or.inr (Or.inl h3.symm)))
  · rw [heq] at h
    have h2 : CreateOutcome.err ApiErr.linesFetchError = CreateOutcome.err e := h
    injection h2 with h3
    exact Or.inr (Or.inr (Or.inr (Or.inr h3.symm)))
  · rw [heq] at h
    exact absurd h (by simp)

/-! Claim C8: the authorization check of create_movement. -/

/-- C8: a create_movement call ends in Forbidden exactly when the caller
is not an admin and the submitted target-user id differs from the caller's
own id; in particular an admin acting for another user never receives
Forbidden. -/
theorem claim_C8_forbidden_iff (now today : Nat) (u : User) (data : MovementCreate)
    (store : Store) (mgr : ConnectionManager) (faults : Faults) :
    (create_movement now today u data store mgr faults).outcome = .err .forbidden ↔
      (is_admin_user u = false ∧ data.id_usuario ≠ u.id) := by
  have hcond : validateMovement today u data = none →
      ¬(is_admin_user u = false ∧ data.id_usuario ≠ u.id) := by
    intro hv hc
    rw [(validate_forbidden_iff today u data).mpr hc] at hv
    cases hv
  rcases create_movement_cases now today u data store mgr faults with
    ⟨e, hv, heq⟩ | ⟨hv, e, hr, heq⟩ | ⟨hv, hr, f, hf, heq⟩ | ⟨hv, hr, hf, hu, heq⟩ |
    ⟨hv, hr, hf, hu, hl, heq⟩ | ⟨hv, hr, hf, hu, hl, heq⟩
  · rw [heq]
    constructor
    · intro h
      have h2 : CreateOutcome.err e = CreateOutcome.err .forbidden := h
      injection h2 with h3
      rw [h3] at hv
      exact (validate_forbidden_iff today u data).mp hv
    · intro hc
      rw [(validate_forbidden_iff today u data).mpr hc] at hv
      injection hv with h3
      show CreateOutcome.err e = CreateOutcome.err .forbidden
      rw [← h3]
  · refine iff_of_false ?_ (hcond hv)
    rw [heq]
    intro h
    have h2 : CreateOutcome.err e = CreateOutcome.err .forbidden := h
    injection h2 with h3
    rcases refCheck_shape store data e hr with ⟨cs, hcs⟩ | ⟨cs, hcs⟩ <;>
      (rw [hcs] at h3; cases h3)
  · refine iff_of_false ?_ (hcond hv)
    rw [heq]
    intro h
    have h2 : CreateOutcome.err (handlePyFault f) = CreateOutcome.err .forbidden := h
    injection h2 with h3
    cases f with
    | sqlErr k => cases h3
    | otherExc => cases h3
  · refine iff_of_false ?_ (hcond hv)
    rw [heq]
    intro h
    have h2 : CreateOutcome.err ApiErr.userFetchError = CreateOutcome.err .forbidden := h
    injection h2 with h3
    cases h3
  · refine iff_of_false ?_ (hcond hv)
    rw [heq]
    intro h
    have h2 : CreateOutcome.err ApiErr.linesFetchError = CreateOutcome.err .forbidden := h
    injection h2 with h3
    cases h3
  · refine iff_of_false ?_ (hcond hv)
    rw [heq]
    intro h
    exact absurd h (by simp)

/-- C8, witness: the non-admin egPlain (id 2) submitting for user 1 is
rejected with Forbidden. -/
theorem claim_C8_witness :
    (create_movement 50 10 egPlain { egData with id_usuario := 1 } egStore ⟨[]⟩
        noFaults).outcome = .err .forbidden :=
  (claim_C8_forbidden_iff 50 10 egPlain { egData with id_usuario := 1 } egStore ⟨[]⟩
    noFaults).mpr ⟨by decide, by decide⟩

/-! Claim C7: cardinality bounds on the line list. -/

/-- C7: under a passing authorization check, an empty line list is
rejected with the empty-lines error; 101 or more lines are rejected with
a 400 validation error (the max-lines error, or the expiry error when an
expired inbound line precedes the count check); and exactly 100 lines are
never rejected by either cardinality check. -/
theorem claim_C7_cardinality (now today : Nat) (u : User) (data : MovementCreate)
    (store : Store) (mgr : ConnectionManager) (faults : Faults)
    (hauth : is_admin_user u = true ∨ data.id_usuario = u.id) :
    (data.lineas = [] →
      (create_movement now today u data store mgr faults).outcome = .err .emptyLines) ∧
    (100 < data.lineas.length →
      (create_movement now today u data store mgr faults).outcome = .err .tooManyLines ∨
      ∃ p lo f, (create_movement now today u data store mgr faults).outcome =
        .err (.expiredLine p lo f)) ∧
    (data.lineas.length = 100 →
      (create_movement now today u data store mgr faults).outcome ≠ .err .emptyLines ∧
      (create_movement now today u data store mgr faults).outcome ≠ .err .tooManyLines) := by
  have hnauth : ¬(is_admin_user u = false ∧ data.id_usuario ≠ u.id) := by
    rcases hauth with h | h
    · intro hc
      rw [h] at hc
      cases hc.1
    · intro hc
      exact hc.2 h
  have outcome_of_validate : ∀ e, validateMovement today u data = some e →
      (create_movement now today u data store mgr faults).outcome = .err e := by
    intro e hval
    rcases create_movement_cases now today u data store mgr faults with
      ⟨e2, hv, heq⟩ | ⟨hv, _⟩ | ⟨hv, _⟩ | ⟨hv, _⟩ | ⟨hv, _⟩ | ⟨hv, _⟩
    · rw [hval] at hv
      injection hv with h3
      rw [heq, ← h3]
    all_goals (rw [hval] at hv; cases hv)
  refine ⟨?_, ?_, ?_⟩
  · intro h0
    exact outcome_of_validate _ (validate_of_empty today u data hnauth h0)
  · intro h0
    cases hf : findExpiredLine today data.tipo data.lineas with
    | some ld =>
        obtain ⟨l, d⟩ := ld
        exact Or.inr ⟨l.codigo_producto, l.lote, d,
          outcome_of_validate _ (validate_of_expired today u data l d hnauth hf)⟩
    | none =>
        have hne : data.lineas.isEmpty = false := by
          cases hl : data.lineas with
          | nil => rw [hl] at h0; simp at h0
          | cons a rest => rfl
        exact Or.inl (outcome_of_validate _
          (validate_of_tooMany today u data hnauth hne hf h0))
  · intro h0
    have hne : data.lineas.isEmpty = false := by
      cases hl : data.lineas with
      | nil => rw [hl] at h0; simp at h0
      | cons a rest => rfl
    have hlen : ¬ 100 < data.lineas.length := by rw [h0]; exact Nat.lt_irrefl 100
    constructor
    · intro hbad
      rcases create_outcome_err_inv now today u data store mgr faults _ hbad with
        hv | hr | ⟨f, _, he⟩ | he | he
      · obtain ⟨p, lo, fe, hsh⟩ := validate_some_shape today u data hnauth hne hlen _ hv
        cases hsh
      · rcases refCheck_shape store data _ hr with ⟨cs, hcs⟩ | ⟨cs, hcs⟩ <;> cases hcs
      · cases f with
        | sqlErr k => cases he
        | otherExc => cases he
      · cases he
      · cases he
    · intro hbad
      rcases create_outcome_err_inv now today u data store mgr faults _ hbad with
        hv | hr | ⟨f, _, he⟩ | he | he
      · obtain ⟨p, lo, fe, hsh⟩ := validate_some_shape today u data hnauth hne hlen _ hv
        cases hsh
      · rcases refCheck_shape store data _ hr with ⟨cs, hcs⟩ | ⟨cs, hcs⟩ <;> cases hcs
      · cases f with
        | sqlErr k => cases he
        | otherExc => cases he
      · cases he
      · cases he

/-- C7, witness: the admin submitting the request with zero lines receives
the empty-lines rejection, and the valid three-line request is rejected by
neither cardinality check. -/
theorem claim_C7_witness :
    (create_movement 50 10 egAdmin egDataEmpty egStore ⟨[]⟩ noFaults).outcome =
      .err .emptyLines :=
  (claim_C7_cardinality 50 10 egAdmin egDataEmpty egStore ⟨[]⟩ noFaults
    (Or.inl (by decide))).1 rfl

/-- A create_movement call never ends in the expiry rejection when the
line scan finds no offending line. -/
theorem no_expired_err_of_none (now today : Nat) (u : User) (data : MovementCreate)
    (store : Store) (mgr : ConnectionManager) (faults : Faults)
    (hf : findExpiredLine today data.tipo data.lineas = none) :
    ∀ p lo f, (create_movement now today u data store mgr faults).outcome ≠
      .err (.expiredLine p lo f) := by
  intro p lo f hbad
  rcases create_outcome_err_inv now today u data store mgr faults _ hbad with
    hv | hr | ⟨g, _, he⟩ | he | he
  · have := validate_expiredLine_inv today u data p lo f hv
    rw [hf] at this
    cases this
  · rcases refCheck_shape store data _ hr with ⟨cs, hcs⟩ | ⟨cs, hcs⟩ <;> cases hcs
  · cases g with
    | sqlErr k => cases he
    | otherExc => cases he
  · cases he
  · cases he

/-! Claim C6: the expiration-date policy. -/

/-- C6: under a passing authorization check, an inbound request holding a
line whose expiration date is on or before today is rejected with the
expiry error naming an offending line's product and lot; a request whose
dated lines all expire strictly after today is never rejected by the
expiry check; and an outbound request is never rejected by the expiry
check, whatever its dates. -/
theorem claim_C6_expiration (now today : Nat) (u : User) (data : MovementCreate)
    (store : Store) (mgr : ConnectionManager) (faults : Faults) :
    ((is_admin_user u = true ∨ data.id_usuario = u.id) → data.tipo = .entrada →
      ∀ l ∈ data.lineas, ∀ d, l.fecha_cad = some d → d ≤ today →
        ∃ l2 d2, l2 ∈ data.lineas ∧ l2.fecha_cad = some d2 ∧ d2 ≤ today ∧
          (create_movement now today u data store mgr faults).outcome =
            .err (.expiredLine l2.codigo_producto l2.lote d2)) ∧
    ((∀ l ∈ data.lineas, ∀ d, l.fecha_cad = some d → today < d) →
      ∀ p lo f, (create_movement now today u data store mgr faults).outcome ≠
        .err (.expiredLine p lo f)) ∧
    (data.tipo = .salida →
      ∀ p lo f, (create_movement now today u data store mgr faults).outcome ≠
        .err (.expiredLine p lo f)) := by
  refine ⟨?_, ?_, ?_⟩
  · intro hauth htipo l hl d hd hexp
    have hnauth : ¬(is_admin_user u = false ∧ data.id_usuario ≠ u.id) := by
      rcases hauth with h | h
      · intro hc
        rw [h] at hc
        cases hc.1
      · intro hc
        exact hc.2 h
    have hsome : (findExpiredLine today data.tipo data.lineas).isSome = true := by
      rw [htipo]
      exact findExpiredLine_isSome today data.lineas l d hl hd hexp
    obtain ⟨ld, hld⟩ := Option.isSome_iff_exists.mp hsome
    obtain ⟨l2, d2⟩ := ld
    obtain ⟨hmem, hcad, hle, _⟩ := findExpiredLine_spec today data.tipo data.lineas l2 d2 hld
    have hval := validate_of_expired today u data l2 d2 hnauth hld
    refine ⟨l2, d2, hmem, hcad, hle, ?_⟩
    rcases create_movement_cases now today u data store mgr faults with
      ⟨e2, hv, heq⟩ | ⟨hv, _⟩ | ⟨hv, _⟩ | ⟨hv, _⟩ | ⟨hv, _⟩ | ⟨hv, _⟩
    · rw [hval] at hv
      injection hv with h3
      rw [heq, ← h3]
    all_goals (rw [hval] at hv; cases hv)
  · intro hfresh
    exact no_expired_err_of_none now today u data store mgr faults
      (findExpiredLine_none_of_fresh today data.tipo data.lineas hfresh)
  · intro htipo
    refine no_expired_err_of_none now today u data store mgr faults ?_
    rw [htipo]
    exact findExpiredLine_salida today data.lineas

/-- C6, witness: the inbound request whose single line expires exactly
today (the boundary) is rejected with the expiry error naming product 100
and lot L1, while the same line dated tomorrow is not rejected by the
expiry check. -/
theorem claim_C6_witness :
    (create_movement 50 10 egAdmin egDataExp egStore ⟨[]⟩ noFaults).outcome =
      .err (.expiredLine 100 (some "L1") 10) ∧
    (create_movement 50 10 egAdmin
        { egDataExp with lineas := [⟨1, 100, some "L1", some 11, 5⟩] } egStore ⟨[]⟩
        noFaults).outcome ≠ .err (.expiredLine 100 (some "L1") 11) := by
  constructor
  · obtain ⟨l2, d2, hmem, hcad, hle, hout⟩ :=
      (claim_C6_expiration 50 10 egAdmin egDataExp egStore ⟨[]⟩ noFaults).1
        (Or.inl (by decide)) rfl ⟨1, 100, some "L1", some 10, 5⟩ (by decide) 10 rfl
        (by decide)
    have hl2 : l2 = ⟨1, 100, some "L1", some 10, 5⟩ := by
      have := hmem
      simp only [egDataExp, List.mem_singleton] at this
      exact this
    rw [hl2] at hout hcad
    injection hcad with hd2
    subst hd2
    exact hout
  · exact (claim_C6_expiration 50 10 egAdmin
      { egDataExp with lineas := [⟨1, 100, some "L1", some 11, 5⟩] } egStore ⟨[]⟩
      noFaults).2.1 (by decide) 100 (some "L1") 11

/-! Lemmas about the inserted line rows. -/

theorem mkLinesFrom_length (m i0 : Nat) (ls : List LineCreate) :
    (mkLinesFrom m i0 ls).length = ls.length := by
  induction ls generalizing i0 with
  | nil => rfl
  | cons l rest ih => simp [mkLinesFrom, ih]

theorem mkLinesFrom_map_id_linea (m i0 : Nat) (ls : List LineCreate) :
    (mkLinesFrom m i0 ls).map (fun l => l.id_linea) = List.range' i0 ls.length := by
  induction ls generalizing i0 with
  | nil => rfl
  | cons l rest ih =>
      simp only [List.length_cons, List.range'_succ]
      simp [mkLinesFrom, ih, lineRow]

theorem mkLinesFrom_get (m : Nat) (ls : List LineCreate) (i0 i : Nat)
    (hi : i < ls.length) (hi2 : i < (mkLinesFrom m i0 ls).length) :
    (mkLinesFrom m i0 ls).get ⟨i, hi2⟩ = lineRow m (i0 + i) (ls.get ⟨i, hi⟩) := by
  induction ls generalizing i0 i with
  | nil => cases hi
  | cons l rest ih =>
      cases i with
      | zero => rfl
      | succ j =>
          have hj : j < rest.length := Nat.lt_of_succ_lt_succ hi
          have hj2 : j < (mkLinesFrom m (i0 + 1) rest).length := by
            rw [mkLinesFrom_length]
            exact hj
          have step : (mkLinesFrom m i0 (l :: rest)).get ⟨j + 1, hi2⟩ =
              (mkLinesFrom m (i0 + 1) rest).get ⟨j, hj2⟩ := rfl
          rw [step, ih (i0 + 1) j hj hj2]
          have : i0 + 1 + j = i0 + (j + 1) := by omega
          rw [this]
          rfl

/-! Claim C5: sequence numbers and lot defaulting of the persisted lines. -/

/-- C5: every successful create_movement call appended exactly the rows
built from the submitted lines, whose sequence numbers are 1..N in
submission order; the i-th persisted row is lineRow at position i + 1, so
it carries the i-th submitted line's codes, quantity and date, and its lot
is the submitted lot with the sentinel substituted for a missing or blank
value; the line count is between 1 and 100. -/
theorem claim_C5_lines (now today : Nat) (u : User) (data : MovementCreate)
    (store : Store) (mgr : ConnectionManager) (faults : Faults)
    (h : (create_movement now today u data store mgr faults).outcome.isOk = true) :
    1 ≤ data.lineas.length ∧ data.lineas.length ≤ 100 ∧
    (create_movement now today u data store mgr faults).store.movementLines =
      store.movementLines ++ mkLines store.nextMovId data.lineas ∧
    (mkLines store.nextMovId data.lineas).map (fun l => l.id_linea) =
      List.range' 1 data.lineas.length ∧
    ∀ i (hi : i < data.lineas.length)
        (hi2 : i < (mkLines store.nextMovId data.lineas).length),
      (mkLines store.nextMovId data.lineas).get ⟨i, hi2⟩ =
        lineRow store.nextMovId (i + 1) (data.lineas.get ⟨i, hi⟩) := by
  rcases create_movement_cases now today u data store mgr faults with
    ⟨e, hv, heq⟩ | ⟨hv, e, hr, heq⟩ | ⟨hv, hr, f, hf, heq⟩ | ⟨hv, hr, hf, hu, heq⟩ |
    ⟨hv, hr, hf, hu, hl, heq⟩ | ⟨hv, hr, hf, hu, hl, heq⟩
  · rw [heq] at h
    cases h
  · rw [heq] at h
    cases h
  · rw [heq] at h
    cases h
  · rw [heq] at h
    cases h
  · rw [heq] at h
    cases h
  · obtain ⟨_, hne, _, hlen⟩ := validate_none_parts today u data hv
    have hge : 1 ≤ data.lineas.length := by
      cases hl2 : data.lineas with
      | nil => rw [hl2] at hne; cases hne
      | cons a rest => simp [hl2]
    refine ⟨hge, by omega, ?_, mkLinesFrom_map_id_linea store.nextMovId 1 data.lineas, ?_⟩
    · rw [heq]
      rfl
    · intro i hi hi2
      have hi3 : i < (mkLinesFrom store.nextMovId 1 data.lineas).length := by
        rw [mkLinesFrom_length]
        exact hi
      have hthis := mkLinesFrom_get store.nextMovId data.lineas 1 i hi hi3
      have h1i : (1 : Nat) + i = i + 1 := by omega
      rw [h1i] at hthis
      exact hthis

/-- C5, witness: in the committed three-line movement, the store holds the
appended rows, their sequence numbers are exactly [1, 2, 3], and the
second row (blank lot submitted) is lineRow at position 2, whose lot is
the sentinel. -/
theorem claim_C5_witness :
    (create_movement 50 10 egAdmin egData egStore ⟨[]⟩ noFaults).store.movementLines =
      egStore.movementLines ++ mkLines 7 egData.lineas ∧
    (mkLines 7 egData.lineas).map (fun l => l.id_linea) = List.range' 1 3 ∧
    (mkLines 7 egData.lineas).get ⟨1, by decide⟩ =
      lineRow 7 2 (egData.lineas.get ⟨1, by decide⟩) ∧
    (lineRow 7 2 (egData.lineas.get ⟨1, by decide⟩)).lote = "SIN_LOTE" := by
  have T := claim_C5_lines 50 10 egAdmin egData egStore ⟨[]⟩ noFaults (by decide)
  exact ⟨T.2.2.1, T.2.2.2.1, T.2.2.2.2 1 (by decide) (by decide), by decide⟩

/-! Claim C3: mapping of persistence failures to error responses. -/

/-- C3, counterexample: a connectivity failure at commit time is an
OperationalError, a subclass of SQLAlchemyError, so the first except
clause of create_movement catches it and answers 400 with the integrity
message — not 500: the two persistence failure kinds do not map to the
distinct outcomes the claim states. -/
theorem claim_C3_counterexample :
    (create_movement 50 10 egAdmin egData egStore ⟨[]⟩
        ⟨some (.sqlErr .operationalFailure), false, false⟩).outcome =
      .err .integrityError ∧
    ApiErr.status .integrityError = 400 ∧
    ApiErr.detail .integrityError = "Error de integridad" := by
  decide

/-- C3, amended: every SQLAlchemyError raised inside the transactional
try-block — uniqueness or foreign-key violations and connectivity failures
alike — rolls the transaction back and is answered 400 with the integrity
message; only an exception outside the SQLAlchemyError hierarchy is
answered 500.  The two storage failure kinds are not distinguished. -/
theorem claim_C3_amended (now today : Nat) (u : User) (data : MovementCreate)
    (store : Store) (mgr : ConnectionManager) (faults : Faults)
    (hv : validateMovement today u data = none)
    (hr : refCheck store data = none) :
    (∀ k, faults.txFault = some (.sqlErr k) →
      (create_movement now today u data store mgr faults).outcome = .err .integrityError ∧
      (create_movement now today u data store mgr faults).store = store) ∧
    (faults.txFault = some .otherExc →
      (create_movement now today u data store mgr faults).outcome = .err .dbError ∧
      (create_movement now today u data store mgr faults).store = store) ∧
    ApiErr.status .integrityError = 400 ∧ ApiErr.status .dbError = 500 := by
  have main : ∀ g, faults.txFault = some g →
      (create_movement now today u data store mgr faults).outcome =
        .err (handlePyFault g) ∧
      (create_movement now today u data store mgr faults).store = store := by
    intro g hg
    rcases create_movement_cases now today u data store mgr faults with
      ⟨e, hv2, _⟩ | ⟨_, e, hr2, _⟩ | ⟨_, _, f, hf2, heq⟩ | ⟨_, _, hf2, _⟩ |
      ⟨_, _, hf2, _⟩ | ⟨_, _, hf2, _⟩
    · rw [hv] at hv2
      cases hv2
    · rw [hr] at hr2
      cases hr2
    · rw [hg] at hf2
      injection hf2 with hfe
      rw [heq, ← hfe]
      exact ⟨rfl, rfl⟩
    all_goals (rw [hg] at hf2; cases hf2)
  exact ⟨fun k hk => main (.sqlErr k) hk, fun hk => main .otherExc hk, rfl, rfl⟩

/-- C3, witness for the amended claim: at the valid request, an injected
IntegrityError yields the 400 integrity outcome and an injected
non-SQLAlchemy exception yields the 500 outcome, the store unchanged in
both runs. -/
theorem claim_C3_witness :
    (create_movement 50 10 egAdmin egData egStore ⟨[]⟩
        ⟨some (.sqlErr .integrityViolation), false, false⟩).outcome =
      .err .integrityError ∧
    (create_movement 50 10 egAdmin egData egStore ⟨[]⟩
        ⟨some .otherExc, false, false⟩).outcome = .err .dbError ∧
    (create_movement 50 10 egAdmin egData egStore ⟨[]⟩
        ⟨some (.sqlErr .integrityViolation), false, false⟩).store = egStore := by
  have T1 := claim_C3_amended 50 10 egAdmin egData egStore ⟨[]⟩
    ⟨some (.sqlErr .integrityViolation), false, false⟩ (by decide) (by decide)
  have T2 := claim_C3_amended 50 10 egAdmin egData egStore ⟨[]⟩
    ⟨some .otherExc, false, false⟩ (by decide) (by decide)
  exact ⟨(T1.1 .integrityViolation rfl).1, (T2.2.1 rfl).1, (T1.1 .integrityViolation rfl).2⟩

/-! Claim C1: atomicity of failed movement-creation requests. -/

/-- C1, counterexample: a run in which the transaction commits and the
post-commit SELECT of the user name then fails.  The caller receives the
500 user-fetch error — a failed movement-creation request — yet the store
now holds one more Movement header and its lines: not every failing
request leaves the store unchanged. -/
theorem claim_C1_counterexample :
    (create_movement 50 10 egAdmin egData egStore ⟨[]⟩ ⟨none, true, false⟩).outcome =
      .err .userFetchError ∧
    ApiErr.status .userFetchError = 500 ∧
    (create_movement 50 10 egAdmin egData egStore ⟨[]⟩
        ⟨none, true, false⟩).store.movements.length = egStore.movements.length + 1 ∧
    (create_movement 50 10 egAdmin egData egStore ⟨[]⟩ ⟨none, true, false⟩).store ≠
      egStore := by
  decide

/-- C1, amended: a failing create_movement call either leaves the store
exactly as it was — every validation rejection, referential rejection and
persistence failure inside the transaction is rolled back with no header
and no lines persisted — or, only when the failure is one of the two
post-commit read errors, leaves the complete committed movement (header
plus all its lines); a partial movement is never visible. -/
theorem claim_C1_amended (now today : Nat) (u : User) (data : MovementCreate)
    (store : Store) (mgr : ConnectionManager) (faults : Faults)
    (h : (create_movement now today u data store mgr faults).outcome.isOk = false) :
    (create_movement now today u data store mgr faults).store = store ∨
    ((create_movement now today u data store mgr faults).store =
        commitMovement store now data ∧
      ((create_movement now today u data store mgr faults).outcome =
          .err .userFetchError ∨
        (create_movement now today u data store mgr faults).outcome =
          .err .linesFetchError)) := by
  rcases create_movement_cases now today u data store mgr faults with
    ⟨e, hv, heq⟩ | ⟨hv, e, hr, heq⟩ | ⟨hv, hr, f, hf, heq⟩ | ⟨hv, hr, hf, hu, heq⟩ |
    ⟨hv, hr, hf, hu, hl, heq⟩ | ⟨hv, hr, hf, hu, hl, heq⟩
  · rw [heq]
    exact Or.inl rfl
  · rw [heq]
    exact Or.inl rfl
  · rw [heq]
    exact Or.inl rfl
  · rw [heq]
    exact Or.inr ⟨rfl, Or.inl rfl⟩
  · rw [heq]
    exact Or.inr ⟨rfl, Or.inr rfl⟩
  · rw [heq] at h
    cases h

/-- C1, witness for the amended claim: the request referencing the
deactivated product 200 fails, and the amended theorem pins the resulting
store; the first disjunct holds — egStoreInactive is unchanged. -/
theorem claim_C1_witness :
    (create_movement 50 10 egAdmin egData egStoreInactive ⟨[]⟩ noFaults).store =
        egStoreInactive ∨
    ((create_movement 50 10 egAdmin egData egStoreInactive ⟨[]⟩ noFaults).store =
        commitMovement egStoreInactive 50 egData ∧
      ((create_movement 50 10 egAdmin egData egStoreInactive ⟨[]⟩ noFaults).outcome =
          .err .userFetchError ∨
        (create_movement 50 10 egAdmin egData egStoreInactive ⟨[]⟩ noFaults).outcome =
          .err .linesFetchError)) :=
  claim_C1_amended 50 10 egAdmin egData egStoreInactive ⟨[]⟩ noFaults (by decide)

/-! Claim C9: coupling of the notification to the commit. -/

/-- C9, counterexample: when the post-commit user-name SELECT fails, the
transaction has committed — the store holds movement 7 — yet no broadcast
message is handed to the fan-out: the notification is not triggered on
every successful commit, so it is not triggered exactly when the
transaction commits. -/
theorem claim_C9_counterexample :
    (create_movement 50 10 egAdmin egData egStore ⟨[]⟩
        ⟨none, true, false⟩).store.movements.map (fun m => m.id_mov) = [7] ∧
    (create_movement 50 10 egAdmin egData egStore ⟨[]⟩ ⟨none, true, false⟩).broadcastMsg =
      none ∧
    (create_movement 50 10 egAdmin egData egStore ⟨[]⟩ ⟨none, true, false⟩).outcome =
      .err .userFetchError := by
  decide

/-- C9, amended: the broadcast is handed a message exactly when the call
returns the success response (so only after a successful commit, but not
on a committed run whose post-commit read-back fails); on success the
message names the generated movement id and the type, and the committed
store stands; and the outcome, the resulting store and the message are
all independent of the registered observers, so delivery failures never
reach the caller nor the committed data. -/
theorem claim_C9_amended (now today : Nat) (u : User) (data : MovementCreate)
    (store : Store) (mgr mgr2 : ConnectionManager) (faults : Faults) :
    ((create_movement now today u data store mgr faults).broadcastMsg.isSome =
      (create_movement now today u data store mgr faults).outcome.isOk) ∧
    ((create_movement now today u data store mgr faults).outcome.isOk = true →
      (create_movement now today u data store mgr faults).broadcastMsg =
        some (mensaje store.nextMovId data.tipo) ∧
      (create_movement now today u data store mgr faults).store =
        commitMovement store now data) ∧
    ((create_movement now today u data store mgr faults).outcome =
        (create_movement now today u data store mgr2 faults).outcome ∧
      (create_movement now today u data store mgr faults).store =
        (create_movement now today u data store mgr2 faults).store ∧
      (create_movement now today u data store mgr faults).broadcastMsg =
        (create_movement now today u data store mgr2 faults).broadcastMsg) := by
  unfold create_movement
  cases hv : validateMovement today u data with
  | some e => exact ⟨rfl, fun h => Bool.noConfusion h, rfl, rfl, rfl⟩
  | none =>
      cases hr : refCheck store data with
      | some e => exact ⟨rfl, fun h => Bool.noConfusion h, rfl, rfl, rfl⟩
      | none =>
          cases hf : faults.txFault with
          | some f => exact ⟨rfl, fun h => Bool.noConfusion h, rfl, rfl, rfl⟩
          | none =>
              cases hu : faults.userFetchFault with
              | true => exact ⟨rfl, fun h => Bool.noConfusion h, rfl, rfl, rfl⟩
              | false =>
                  cases hl : faults.linesFetchFault with
                  | true => exact ⟨rfl, fun h => Bool.noConfusion h, rfl, rfl, rfl⟩
                  | false => exact ⟨rfl, fun _ => ⟨rfl, rfl⟩, rfl, rfl, rfl⟩

/-- C9, witness: the valid request succeeds with a disconnected observer
registered first: the committed store, the success outcome and the message
naming movement 7 and tipo salida are the same as with no observers at
all — the delivery failure is absorbed. -/
theorem claim_C9_witness :
    (create_movement 50 10 egAdmin egData egStore ⟨[⟨5, false⟩, ⟨6, true⟩]⟩
        noFaults).broadcastMsg = some (mensaje 7 .salida) ∧
    (create_movement 50 10 egAdmin egData egStore ⟨[⟨5, false⟩, ⟨6, true⟩]⟩
        noFaults).store = commitMovement egStore 50 egData ∧
    (create_movement 50 10 egAdmin egData egStore ⟨[⟨5, false⟩, ⟨6, true⟩]⟩
        noFaults).outcome =
      (create_movement 50 10 egAdmin egData egStore ⟨[]⟩ noFaults).outcome := by
  have T := claim_C9_amended 50 10 egAdmin egData egStore ⟨[⟨5, false⟩, ⟨6, true⟩]⟩ ⟨[]⟩
    noFaults
  exact ⟨(T.2.1 (by decide)).1, (T.2.1 (by decide)).2, T.2.2.1⟩

/-! Claim C4: read-side visibility of movement data. -/

/-- C4, counterexample: in histStore the only movement (id 7) is owned by
user 2, the caller histCaller is a non-admin with id 1, and yet the stock
movement history returns that movement's row to the caller: the history
queries apply no ownership restriction. -/
theorem claim_C4_counterexample :
    is_admin_user histCaller = false ∧
    histCaller.id = 1 ∧
    (get_stock_history histCaller histStore 10 0).map (fun r => r.id_mov) = [7] ∧
    histStore.movements.map (fun m => (m.id_mov, m.id_usuario)) = [(7, 2)] := by
  decide

/-- C4, amended: the movement listing does restrict a non-admin caller to
movements whose owning-user id equals the caller's id, but the stock
movement history applies no owner restriction at all — its result is the
same whoever the caller is, so a non-admin receives rows of every user's
movements. -/
theorem claim_C4_amended (store : Store) (u u2 : User) (limit offset : Nat)
    (search tipo : Option String) (fd fh uid : Option Nat) :
    (is_admin_user u = false →
      ∀ r ∈ get_movements store u limit offset search tipo fd fh uid,
        r.id_usuario = u.id) ∧
    get_stock_history u store limit offset = get_stock_history u2 store limit offset := by
  constructor
  · intro hadmin r hr
    unfold get_movements at hr
    rw [List.mem_map] at hr
    obtain ⟨q, hq, hrq⟩ := hr
    have hq1 : q ∈ (sortDescBy (fun r => r.mov.fecha)
        (movementsStatement store u search tipo fd fh uid)).drop offset :=
      List.take_subset _ _ hq
    have hq2 : q ∈ sortDescBy (fun r => r.mov.fecha)
        (movementsStatement store u search tipo fd fh uid) :=
      List.drop_subset _ _ hq1
    have hq3 := (mem_sortDescBy _ _ _).mp hq2
    have := movementsStatement_nonadmin store u search tipo fd fh uid q hadmin hq3
    rw [← hrq]
    exact this
  · rfl

/-- C4, witness for the amended claim: the caller-independence half at the
two concrete users of histStore, and the ownership half at the non-admin
owner bobUser, whose listing row for movement 7 indeed carries bobUser's
own id. -/
theorem claim_C4_witness :
    get_stock_history histCaller histStore 10 0 = get_stock_history bobUser histStore 10 0 ∧
    ({ id_mov := 7, fecha := 50, tipo := .entrada, id_usuario := 2,
       nombre_usuario := "bob",
       lineas := [⟨7, 1, 1, 100, "L", none, 5⟩] } : MovementResponse).id_usuario = bobUser.id := by
  refine ⟨(claim_C4_amended histStore histCaller bobUser 10 0 none none none none none).2,
    (claim_C4_amended histStore bobUser histCaller 10 0 none none none none none).1
      (by decide) _ (by decide)⟩

/-! Claim C2: broadcast delivery isolation. -/

/-- C2, counterexample: with observers 5 (already disconnected) and 6
(connected) registered in that order, one broadcast call delivers to
nobody: the raise from the first send aborts the loop, so the remaining
registered observer 6 receives nothing. -/
theorem claim_C2_counterexample :
    (ConnectionManager.broadcast ⟨[⟨5, false⟩, ⟨6, true⟩]⟩).1 = [] ∧
    (Observer.mk 6 true).connected = true ∧
    ¬ 6 ∈ (ConnectionManager.broadcast ⟨[⟨5, false⟩, ⟨6, true⟩]⟩).1 := by
  decide

/-- C2, amended: a broadcast call delivers, in registration order, exactly
to the observers before the first disconnected one (the take-while prefix
of connected observers); delivery to one disconnected observer halts
delivery to every observer registered after it, and the loop runs to
completion only when every registered observer is still connected. -/
theorem claim_C2_amended (m : ConnectionManager) :
    m.broadcast =
      ((m.active_connections.takeWhile (fun o => o.connected)).map Observer.id,
        m.active_connections.all (fun o => o.connected)) := by
  show broadcastRun m.active_connections = _
  induction m.active_connections with
  | nil => rfl
  | cons o rest ih =>
      cases h : o.connected with
      | true => simp [broadcastRun, h, ih, List.takeWhile_cons, List.all_cons]
      | false => simp [broadcastRun, h, List.takeWhile_cons, List.all_cons]

/-! Claim C10: a warehouse with any stock row cannot be deactivated
through the single-warehouse update endpoint. -/

/-- C10: whenever the update request sets activo to false, the warehouse
exists, and at least one Stock row references the warehouse — with no
condition on the row's cantidad — the request is rejected with 403 and the
store is returned unchanged. -/
theorem claim_C10_stock_blocks_deactivation (codigo : Nat) (upd : WarehouseUpdate)
    (store : Store)
    (hw : (store.warehouses.find? (fun w => w.codigo == codigo)).isSome = true)
    (ha : upd.activo = some false)
    (hs : ∃ s ∈ store.stocks, s.codigo_almacen = codigo) :
    update_warehouse codigo upd store = (.err (.whNotEmpty codigo), store) ∧
    ApiErr.status (.whNotEmpty codigo) = 403 := by
  obtain ⟨wh, hfind⟩ := Option.isSome_iff_exists.mp hw
  have hstock : (store.stocks.find? (fun s => s.codigo_almacen == codigo)).isSome = true := by
    rw [List.find?_isSome]
    obtain ⟨s, hs1, hs2⟩ := hs
    exact ⟨s, hs1, by simp [hs2]⟩
  simp only [update_warehouse, hfind]
  rw [if_pos ⟨ha, hstock⟩]
  exact ⟨rfl, rfl⟩

/-- C10, witness: warehouse 1 of whStore carries exactly one stock row
and its quantity is zero, yet the deactivation request is rejected with
the 403 not-empty error and the store is unchanged. -/
theorem claim_C10_witness :
    update_warehouse 1 ⟨none, some false⟩ whStore = (.err (.whNotEmpty 1), whStore) ∧
    whStore.stocks.map (fun s => s.cantidad) = [0] := by
  refine ⟨(claim_C10_stock_blocks_deactivation 1 ⟨none, some false⟩ whStore (by decide) rfl
    ⟨⟨1, 100, "L", none, 0⟩, by decide, rfl⟩).1, by decide⟩

end Tabula
